import Mathlib

/-!
Verification of the collatzin repository's core against its specification.

The repository holds four Python scripts that draw Collatz-type integer
orbits as 3-D turtle polylines.  The source functions are embedded
shallowly below:

* `Collatz.next_n`, `Collatz.collatz_path_3d`, `Collatz.plot_shrub_starts`
  embed `collatz.py` (the time-stacked variant, `Z_STEP = 0.15`);
* `CollatzDash.next_n`, `CollatzDash.update_shrub_starts` embed
  `collatz_dash.py` (the Dash UI variant);
* `Old2.next_n` embeds `old2.py`.

Machine integers are embedded as `Nat` (Python ints are unbounded and all
values here stay non-negative; `//` is floor division, which on
non-negative operands is `Nat` division).  Floating point state (positions,
angles, step lengths) is embedded over an arbitrary linear ordered field,
with the transcendental functions `math.cos`, `math.sin`, `math.log`
abstracted as function parameters, so every theorem about the geometry is a
statement about exact field arithmetic.  A `raise` is embedded as `none`.
The unbounded `while n != 1` loops are embedded with an explicit fuel
argument; `none` for exhausted fuel only means the embedding was not given
enough steps, never that the code fails.
-/

namespace Collatzin

/-- Model of Python `range(lo, hi)` as the list of integers from `lo`
(inclusive) to `hi` (exclusive). -/
def pyRange (lo hi : ℕ) : List ℕ :=
  List.range' lo (hi - lo)

/-- Model of the Python standard library call `random.sample(population, k)`:
it returns a list of `k` distinct elements of `population` when
`k ≤ len(population)` and raises `ValueError` (here `none`) otherwise.  The
seeded pseudo-random selection itself is abstracted as the parameter `draw`;
theorems that need properties of the drawn list take them as hypotheses on
`draw`. -/
def randomSample (draw : List ℕ → ℕ → List ℕ) (population : List ℕ) (k : ℕ) :
    Option (List ℕ) :=
  if k ≤ population.length then some (draw population k) else none

namespace Collatz

/-- Embedding of `next_n` from `src/collatz.py` (lines 54-65).  An
unrecognized scheme raises `ValueError`, embedded as `none`. -/
def next_n (n : ℕ) (scheme : String) : Option ℕ :=
  if scheme = "binary" then
    some (if n % 2 = 0 then n / 2 else 3 * n + 1)
  else if scheme = "ternary" then
    some (if n % 3 = 0 then n / 3
      else if n % 3 = 1 then (4 * n + 1) / 3
      else (2 * n + 2) / 3)
  else none

/-- The constant `Z_STEP = 0.15` of `src/collatz.py` (line 44), the vertical
rise per iteration, as the exact value `15 / 100` of the field `R`. -/
def Z_STEP (R : Type) [LinearOrderedField R] : R := 15 / 100

/-- The body of the `while n != 1` loop of `collatz_path_3d` in
`src/collatz.py` (lines 77-96), iterated with explicit `fuel`.  The loop
state is the current value `n`, the heading `angle`, the position
`x, y, z`, the counter `step_count` and the accumulated coordinate lists;
`math.cos`, `math.sin` and `math.log` are the abstract parameters
`co, si, lo`, and `lft, rgt` stand for the precomputed radian constants
`_left, _right`.  `none` means the fuel ran out before `n` reached `1`;
the code itself has no such exit and would keep iterating. -/
def pathAux {R : Type} [LinearOrderedField R] (co si lo : R → R) (lft rgt : R)
    (scheme : String) :
    ℕ → ℕ → R → R → R → R → ℕ → List R → List R → List R →
      Option (List R × List R × List R)
  | 0, n, _angle, _x, _y, _z, _sc, xs, ys, zs =>
      if n = 1 then some (xs, ys, zs) else none
  | fuel + 1, n, angle, x, y, _z, sc, xs, ys, zs =>
      if n = 1 then some (xs, ys, zs)
      else
        match next_n n scheme with
        | none => none
        | some nxt =>
          let angle2 : R :=
            if scheme = "binary" then
              if n % 2 = 0 then angle + lft else angle - rgt
            else
              if n % 3 = 0 then angle + lft
              else if n % 3 = 1 then angle - rgt
              else angle + 1 / 2 * lft
          let stepLen : R := 1 / lo ((nxt : R) + 1)
          let x2 := x + stepLen * co angle2
          let y2 := y + stepLen * si angle2
          let sc2 := sc + 1
          let z2 : R := (sc2 : R) * Z_STEP R
          pathAux co si lo lft rgt scheme fuel nxt angle2 x2 y2 z2 sc2
            (xs ++ [x2]) (ys ++ [y2]) (zs ++ [z2])

/-- Embedding of `collatz_path_3d` from `src/collatz.py` (lines 71-98):
start at the origin with heading `inith` (the radian value of
`INITIAL_HEADING_DEG`), the three coordinate lists holding the origin, and
the step counter at `0`. -/
def collatz_path_3d {R : Type} [LinearOrderedField R] (co si lo : R → R)
    (lft rgt inith : R) (fuel n : ℕ) (scheme : String) :
    Option (List R × List R × List R) :=
  pathAux co si lo lft rgt scheme fuel n inith 0 0 0 0 [0] [0] [0]

/-- The number of iterations the `while n != 1` loop of `collatz_path_3d`
performs before `n` reaches `1` — the stopping time of the start value —
computed with explicit fuel. -/
def stoppingTimeAux (scheme : String) : ℕ → ℕ → Option ℕ
  | 0, n => if n = 1 then some 0 else none
  | fuel + 1, n =>
      if n = 1 then some 0
      else
        match next_n n scheme with
        | none => none
        | some nxt => (stoppingTimeAux scheme fuel nxt).map (· + 1)

/-- The successive values the loop variable `n` of `collatz_path_3d` takes,
from the start value down to the terminal `1`, with explicit fuel. -/
def visitedAux (scheme : String) : ℕ → ℕ → Option (List ℕ)
  | 0, n => if n = 1 then some [1] else none
  | fuel + 1, n =>
      if n = 1 then some [1]
      else
        match next_n n scheme with
        | none => none
        | some nxt => (visitedAux scheme fuel nxt).map (n :: ·)

/-- The reference ("hero") starting integer of `src/collatz.py` (line 105):
`837799` for the binary scheme, `91` for the ternary one. -/
def hero (scheme : String) : ℕ :=
  if scheme = "binary" then 837799 else 91

/-- Embedding of the sampling portion of `plot_shrub` from `src/collatz.py`
(lines 104-109): draw `n_samples` integers from `range(2, max_start)` (the
draw raises `ValueError`, here `none`, when `n_samples` exceeds the
population size), then append the hero value when it was not drawn.  The
rest of `plot_shrub` is plotting glue. -/
def plot_shrub_starts (draw : List ℕ → ℕ → List ℕ) (n_samples max_start : ℕ)
    (scheme : String) : Option (List ℕ) :=
  (randomSample draw (pyRange 2 max_start) n_samples).map fun starts =>
    if hero scheme ∈ starts then starts else starts ++ [hero scheme]

end Collatz

namespace CollatzDash

/-- Embedding of `next_n` from `src/collatz_dash.py` (lines 45-55).  It
differs from `collatz.py` in the `n % 3 = 2` branch: `(2 * n + 1) // 3`
instead of `(2 * n + 2) // 3`. -/
def next_n (n : ℕ) (scheme : String) : Option ℕ :=
  if scheme = "binary" then
    some (if n % 2 = 0 then n / 2 else 3 * n + 1)
  else if scheme = "ternary" then
    some (if n % 3 = 0 then n / 3
      else if n % 3 = 1 then (4 * n + 1) / 3
      else (2 * n + 1) / 3)
  else none

/-- Embedding of the input-guarding and sampling portion of `update_shrub`
from `src/collatz_dash.py` (lines 159-170): a falsy (zero) count or bound
is replaced by its default, the bounds are floored at `1` and `10`, and the
draw size is clamped to `min(n_starts, len(population))` so
`random.sample` never raises. -/
def update_shrub_starts (draw : List ℕ → ℕ → List ℕ) (n_starts max_start : ℕ) :
    Option (List ℕ) :=
  let ns := max 1 (if n_starts = 0 then 1000 else n_starts)
  let ms := max 10 (if max_start = 0 then 1000000 else max_start)
  let population := pyRange 2 ms
  randomSample draw population (min ns population.length)

end CollatzDash

namespace Old2

/-- Embedding of `next_n` from `src/old2.py` (lines 82-95); its ternary
`r = 2` branch agrees with `collatz.py`, not with `collatz_dash.py`. -/
def next_n (n : ℕ) (mode : String) : Option ℕ :=
  if mode = "binary" then
    some (if n % 2 = 0 then n / 2 else 3 * n + 1)
  else if mode = "ternary" then
    some (if n % 3 = 0 then n / 3
      else if n % 3 = 1 then (4 * n + 1) / 3
      else (2 * n + 2) / 3)
  else none

end Old2

/-- C1: the claim reads the ternary `r = 2` rule as `(2n + 2) / 3` in every
variant, but `collatz_dash.py` computes `(2 * 2 + 1) // 3 = 1` at `n = 2`,
not `(2 * 2 + 2) / 3 = 2`. -/
theorem ternary_r2_dash_cex :
    CollatzDash.next_n 2 "ternary" = some 1 ∧
    CollatzDash.next_n 2 "ternary" ≠ some ((2 * 2 + 2) / 3) := by
  decide

/-- C1 (amended): for `n ≡ 2 mod 3` the ternary rule of `collatz.py` and of
`old2.py` returns `(2n + 2) / 3`, while the `collatz_dash.py` variant
returns `(2n + 1) / 3`, which is always exactly one less. -/
theorem ternary_r2_variants (n : ℕ) (h : n % 3 = 2) :
    Collatz.next_n n "ternary" = some ((2 * n + 2) / 3) ∧
    Old2.next_n n "ternary" = some ((2 * n + 2) / 3) ∧
    CollatzDash.next_n n "ternary" = some ((2 * n + 1) / 3) ∧
    (2 * n + 1) / 3 + 1 = (2 * n + 2) / 3 := by
  have h0 : ¬ n % 3 = 0 := by omega
  have h1 : ¬ n % 3 = 1 := by omega
  refine ⟨?_, ?_, ?_, ?_⟩
  · simp [Collatz.next_n, h0, h1]
  · simp [Old2.next_n, h0, h1]
  · simp [CollatzDash.next_n, h0, h1]
  · omega

/-- Witness for C1's amended theorem at `n = 2`. -/
theorem ternary_r2_variants_witness :
    2 % 3 = 2 ∧
    (Collatz.next_n 2 "ternary" = some ((2 * 2 + 2) / 3) ∧
     Old2.next_n 2 "ternary" = some ((2 * 2 + 2) / 3) ∧
     CollatzDash.next_n 2 "ternary" = some ((2 * 2 + 1) / 3) ∧
     (2 * 2 + 1) / 3 + 1 = (2 * 2 + 2) / 3) :=
  ⟨by decide, ternary_r2_variants 2 (by decide)⟩

/-- C2: the claim says `advance(4, "ternary") = 3`, but the code computes
`(4 * 4 + 1) // 3 = 17 // 3 = 5`. -/
theorem ternary_advance_4_cex :
    Collatz.next_n 4 "ternary" = some 5 ∧
    Collatz.next_n 4 "ternary" ≠ some 3 := by
  decide

/-- C2 (amended): `advance(6, "ternary")` returns `2` and
`advance(4, "ternary")` returns `5`, the floor of `17 / 3`. -/
theorem ternary_scenario_6_4 :
    Collatz.next_n 6 "ternary" = some 2 ∧
    Collatz.next_n 4 "ternary" = some 5 := by
  decide

/-- C8: for every `n ≥ 1`, the binary rule returns a positive integer and
never a non-positive one. -/
theorem binary_advance_positive (n : ℕ) (h : 1 ≤ n) :
    ∃ m, Collatz.next_n n "binary" = some m ∧ 1 ≤ m := by
  refine ⟨if n % 2 = 0 then n / 2 else 3 * n + 1, ?_, ?_⟩
  · simp [Collatz.next_n]
  · split <;> omega

/-- Witness for C8 at `n = 7`. -/
theorem binary_advance_positive_witness :
    1 ≤ 7 ∧ ∃ m, Collatz.next_n 7 "binary" = some m ∧ 1 ≤ m :=
  ⟨by decide, binary_advance_positive 7 (by decide)⟩

/-- C9: for every positive `n` the ternary rule of both `collatz.py` and
`collatz_dash.py` returns a value (no error is raised); the returned value
`m` satisfies `3 m ≤ N < 3 m + 3` for the branch's numerator `N`, i.e. a
non-exact division is silently rounded down, never rejected. -/
theorem ternary_total_floor (n : ℕ) (h : 1 ≤ n) :
    (∃ m, Collatz.next_n n "ternary" = some m ∧
      3 * m ≤ (if n % 3 = 0 then n else if n % 3 = 1 then 4 * n + 1 else 2 * n + 2) ∧
      (if n % 3 = 0 then n else if n % 3 = 1 then 4 * n + 1 else 2 * n + 2) < 3 * m + 3) ∧
    (∃ m, CollatzDash.next_n n "ternary" = some m ∧
      3 * m ≤ (if n % 3 = 0 then n else if n % 3 = 1 then 4 * n + 1 else 2 * n + 1) ∧
      (if n % 3 = 0 then n else if n % 3 = 1 then 4 * n + 1 else 2 * n + 1) < 3 * m + 3) := by
  have h3 : n % 3 = 0 ∨ n % 3 = 1 ∨ n % 3 = 2 := by omega
  constructor
  · refine ⟨if n % 3 = 0 then n / 3 else if n % 3 = 1 then (4 * n + 1) / 3
      else (2 * n + 2) / 3, ?_, ?_, ?_⟩
    · simp [Collatz.next_n]
    · rcases h3 with h3 | h3 | h3 <;> simp [h3] <;> omega
    · rcases h3 with h3 | h3 | h3 <;> simp [h3] <;> omega
  · refine ⟨if n % 3 = 0 then n / 3 else if n % 3 = 1 then (4 * n + 1) / 3
      else (2 * n + 1) / 3, ?_, ?_, ?_⟩
    · simp [CollatzDash.next_n]
    · rcases h3 with h3 | h3 | h3 <;> simp [h3] <;> omega
    · rcases h3 with h3 | h3 | h3 <;> simp [h3] <;> omega

/-- Witness for C9 at `n = 4`: the `r = 1` numerator `17` is not divisible
by `3` and the code still returns its floor quotient. -/
theorem ternary_total_floor_witness :
    1 ≤ 4 ∧
    ((∃ m, Collatz.next_n 4 "ternary" = some m ∧ 3 * m ≤ 17 ∧ 17 < 3 * m + 3) ∧
     (∃ m, CollatzDash.next_n 4 "ternary" = some m ∧ 3 * m ≤ 17 ∧ 17 < 3 * m + 3)) :=
  ⟨by decide, ternary_total_floor 4 (by decide)⟩

/-- C6: the claim says the sampler clamps an oversized count and succeeds,
but `plot_shrub` in `collatz.py` passes the count to `random.sample`
unclamped: at `count = 20`, `max_start = 10` (population size `8`) the call
raises `ValueError` (embedded as `none`) instead of succeeding. -/
theorem plot_shrub_overdraw_cex :
    Collatz.plot_shrub_starts (fun pop k => pop.take k) 20 10 "binary" = none := by
  decide

/-- C6 (amended): the Dash sampler `update_shrub` does clamp: whenever the
requested count exceeds the population size `max_start - 2`, it draws
exactly the population size and succeeds; the `collatz.py` sampler
`plot_shrub` instead fails on an oversized count. -/
theorem update_shrub_clamps (draw : List ℕ → ℕ → List ℕ)
    (hdraw : ∀ pop k, k ≤ pop.length → (draw pop k).length = k)
    (n_starts max_start : ℕ)
    (hover : max 10 (if max_start = 0 then 1000000 else max_start) - 2 <
      max 1 (if n_starts = 0 then 1000 else n_starts)) :
    ∃ l, CollatzDash.update_shrub_starts draw n_starts max_start = some l ∧
      l.length = max 10 (if max_start = 0 then 1000000 else max_start) - 2 := by
  set ns := max 1 (if n_starts = 0 then 1000 else n_starts) with hns
  set ms := max 10 (if max_start = 0 then 1000000 else max_start) with hms
  have hlen : (pyRange 2 ms).length = ms - 2 := by
    simp [pyRange, List.length_range']
  have hmin : min ns (pyRange 2 ms).length = ms - 2 := by
    rw [hlen]; omega
  refine ⟨draw (pyRange 2 ms) (ms - 2), ?_, ?_⟩
  · simp only [CollatzDash.update_shrub_starts, randomSample, ← hns, ← hms, hmin]
    rw [if_pos (by omega)]
  · exact hdraw _ _ (by omega)

/-- Witness for C6's amended theorem at `count = 20`, `max_start = 10`,
with the abstract draw instantiated by taking a list's first `k` elements. -/
theorem update_shrub_clamps_witness :
    (∀ (pop : List ℕ) (k : ℕ), k ≤ pop.length → (pop.take k).length = k) ∧
    (∃ l, CollatzDash.update_shrub_starts (fun pop k => pop.take k) 20 10 = some l ∧
      l.length = max 10 (if (10 : ℕ) = 0 then 1000000 else 10) - 2) :=
  ⟨fun pop k h => by rw [List.length_take]; omega,
   update_shrub_clamps (fun pop k => pop.take k)
     (fun pop k h => by rw [List.length_take]; omega) 20 10 (by decide)⟩

/-- C7: the claim says the hero is appended exactly when it is absent from
the draw AND `hero < max_start`; but `plot_shrub` never checks the bound:
at `max_start = 10` the binary hero `837799 ≥ 10` is still appended. -/
theorem plot_shrub_hero_beyond_max_cex :
    Collatz.plot_shrub_starts (fun pop k => pop.take k) 3 10 "binary" =
      some [2, 3, 4, 837799] ∧ ¬ 837799 < 10 := by
  decide

/-- C7 (amended): the hero value is appended exactly when it is not already
in the drawn sample, with no `hero < max_start` check; hence the output
always contains the hero and exceeds the drawn size by at most one. -/
theorem plot_shrub_hero_inclusion (draw : List ℕ → ℕ → List ℕ)
    (n_samples max_start : ℕ) (scheme : String) (s l : List ℕ)
    (hs : randomSample draw (pyRange 2 max_start) n_samples = some s)
    (hl : Collatz.plot_shrub_starts draw n_samples max_start scheme = some l) :
    Collatz.hero scheme ∈ l ∧ l.length ≤ s.length + 1 ∧
      (l = s ∨ l = s ++ [Collatz.hero scheme]) ∧
      (l ≠ s ↔ Collatz.hero scheme ∉ s) := by
  rw [Collatz.plot_shrub_starts, hs, Option.map_some'] at hl
  by_cases hh : Collatz.hero scheme ∈ s
  · rw [if_pos hh] at hl
    cases hl
    exact ⟨hh, by omega, Or.inl rfl, by simp [hh]⟩
  · rw [if_neg hh] at hl
    cases hl
    have hne : s ++ [Collatz.hero scheme] ≠ s := by
      intro he
      have := congrArg List.length he
      simp at this
    refine ⟨by simp, by simp, Or.inr rfl, ?_⟩
    simp [hne, hh]

/-- Witness for C7's amended theorem: three integers drawn from
`range(2, 10)`, hero `837799` absent and appended. -/
theorem plot_shrub_hero_inclusion_witness :
    (randomSample (fun pop k => pop.take k) (pyRange 2 10) 3 = some [2, 3, 4]) ∧
    (Collatz.hero "binary" ∈ [2, 3, 4, 837799] ∧
      ([2, 3, 4, 837799] : List ℕ).length ≤ ([2, 3, 4] : List ℕ).length + 1 ∧
      (([2, 3, 4, 837799] : List ℕ) = [2, 3, 4] ∨
        ([2, 3, 4, 837799] : List ℕ) = [2, 3, 4] ++ [Collatz.hero "binary"]) ∧
      (([2, 3, 4, 837799] : List ℕ) ≠ [2, 3, 4] ↔
        Collatz.hero "binary" ∉ ([2, 3, 4] : List ℕ))) :=
  ⟨by decide,
   plot_shrub_hero_inclusion (fun pop k => pop.take k) 3 10 "binary"
     [2, 3, 4] [2, 3, 4, 837799] (by decide) (by decide)⟩

/-- Invariant of the `collatz_path_3d` loop: a successful run from state
`(n, angle, x, y, z, sc, xs, ys, zs)` extends each coordinate list by one
entry per iteration, the number of iterations is the stopping time of `n`,
and the appended `z` entries are `(sc + 1) * Z_STEP, (sc + 2) * Z_STEP, ...`
— the loop recomputes `z` as `step_count * Z_STEP` each pass. -/
theorem pathAux_spec {R : Type} [LinearOrderedField R] (co si lo : R → R)
    (lft rgt : R) (scheme : String) :
    ∀ (fuel n : ℕ) (angle x y z : R) (sc : ℕ) (xs ys zs xs' ys' zs' : List R),
      Collatz.pathAux co si lo lft rgt scheme fuel n angle x y z sc xs ys zs =
        some (xs', ys', zs') →
      ∃ k ex ey,
        Collatz.stoppingTimeAux scheme fuel n = some k ∧
        xs' = xs ++ ex ∧ ex.length = k ∧
        ys' = ys ++ ey ∧ ey.length = k ∧
        zs' = zs ++ List.map (fun i : ℕ => (i : R) * Collatz.Z_STEP R)
          (List.range' (sc + 1) k) := by
  intro fuel
  induction fuel with
  | zero =>
    intro n angle x y z sc xs ys zs xs' ys' zs' h
    by_cases hn : n = 1
    · subst hn
      simp only [Collatz.pathAux, if_pos rfl, Option.some.injEq, Prod.mk.injEq] at h
      obtain ⟨rfl, rfl, rfl⟩ := h
      exact ⟨0, [], [], by simp [Collatz.stoppingTimeAux], by simp, rfl, by simp, rfl,
        by simp⟩
    · simp [Collatz.pathAux, hn] at h
  | succ fuel ih =>
    intro n angle x y z sc xs ys zs xs' ys' zs' h
    by_cases hn : n = 1
    · subst hn
      simp only [Collatz.pathAux, if_pos rfl, Option.some.injEq, Prod.mk.injEq] at h
      obtain ⟨rfl, rfl, rfl⟩ := h
      exact ⟨0, [], [], by simp [Collatz.stoppingTimeAux], by simp, rfl, by simp, rfl,
        by simp⟩
    · rcases hnx : Collatz.next_n n scheme with _ | nxt
      · simp [Collatz.pathAux, hn, hnx] at h
      · simp only [Collatz.pathAux, hn, hnx, if_neg hn] at h
        obtain ⟨k, ex, ey, hst, hxs, hexl, hys, heyl, hzs⟩ :=
          ih nxt _ _ _ _ (sc + 1) _ _ _ _ _ _ h
        rw [List.append_assoc] at hxs hys hzs
        exact ⟨k + 1, _, _,
          by simp [Collatz.stoppingTimeAux, hn, hnx, hst],
          hxs, by simp [hexl],
          hys, by simp [heyl],
          by rw [hzs, List.range'_succ]; simp⟩

/-- Index formula for the z-coordinate list of a run started at the origin:
entry `i` is `i * Z_STEP`. -/
theorem getD_zlist {R : Type} [LinearOrderedField R] (k i : ℕ) (hi : i < k + 1) :
    (((0 : R) :: List.map (fun j : ℕ => (j : R) * Collatz.Z_STEP R)
      (List.range' 1 k)).getD i 0) = (i : R) * Collatz.Z_STEP R := by
  cases i with
  | zero => simp
  | succ j =>
    rw [List.getD_cons_succ, List.getD_eq_getElem?_getD, List.getElem?_map,
      List.getElem?_range' _ _ (by omega : j < k)]
    simp only [Option.map_some', Option.getD_some]
    push_cast
    ring

set_option maxRecDepth 8000 in
/-- C3: `advance(6, "binary") = 3`, `advance(7, "binary") = 22`, and the
generation loop started at `6` visits `[6, 3, 10, 5, 16, 8, 4, 2, 1]` — 8
iterations — producing, for every choice of the geometric parameters, a
trajectory of 9 points. -/
theorem binary_scenario_6 :
    Collatz.next_n 6 "binary" = some 3 ∧
    Collatz.next_n 7 "binary" = some 22 ∧
    Collatz.visitedAux "binary" 8 6 = some [6, 3, 10, 5, 16, 8, 4, 2, 1] ∧
    Collatz.stoppingTimeAux "binary" 8 6 = some 8 ∧
    ∀ (R : Type) [LinearOrderedField R] (co si lo : R → R) (lft rgt inith : R),
      (Collatz.collatz_path_3d co si lo lft rgt inith 8 6 "binary").map
        (fun out => (out.1.length, out.2.1.length, out.2.2.length)) =
        some (9, 9, 9) := by
  refine ⟨by decide, by decide, by decide, by decide, ?_⟩
  intro R inst co si lo lft rgt inith
  rfl

/-- C4: a terminating run of `collatz_path_3d` from `start ≥ 2` begins at
the origin `(0, 0, 0)`, has length `stopping_time(start) + 1` in each
coordinate list, and its z-coordinates are non-decreasing with every
consecutive difference exactly `Z_STEP`. -/
theorem fixed_policy_trajectory_invariants {R : Type} [LinearOrderedField R]
    (co si lo : R → R) (lft rgt inith : R) (fuel start : ℕ) (scheme : String)
    (xs ys zs : List R) (hstart : 2 ≤ start)
    (hrun : Collatz.collatz_path_3d co si lo lft rgt inith fuel start scheme =
      some (xs, ys, zs)) :
    xs.head? = some 0 ∧ ys.head? = some 0 ∧ zs.head? = some 0 ∧
    (∃ k, Collatz.stoppingTimeAux scheme fuel start = some k ∧
      xs.length = k + 1 ∧ ys.length = k + 1 ∧ zs.length = k + 1) ∧
    ∀ i, i + 1 < zs.length →
      zs.getD i 0 ≤ zs.getD (i + 1) 0 ∧
      zs.getD (i + 1) 0 - zs.getD i 0 = Collatz.Z_STEP R := by
  obtain ⟨k, ex, ey, hst, hxs, hexl, hys, heyl, hzs⟩ :=
    pathAux_spec co si lo lft rgt scheme fuel start inith 0 0 0 0
      [0] [0] [0] xs ys zs hrun
  have hzs' : zs = (0 : R) :: List.map (fun j : ℕ => (j : R) * Collatz.Z_STEP R)
      (List.range' 1 k) := by
    rw [hzs]; simp
  have hzlen : zs.length = k + 1 := by
    rw [hzs']; simp
  refine ⟨?_, ?_, ?_, ⟨k, hst, ?_, ?_, hzlen⟩, ?_⟩
  · rw [hxs]; simp
  · rw [hys]; simp
  · rw [hzs']; simp
  · rw [hxs]; simp [hexl, Nat.add_comm]
  · rw [hys]; simp [heyl, Nat.add_comm]
  · intro i hi
    rw [hzlen] at hi
    have e1 : zs.getD i 0 = (i : R) * Collatz.Z_STEP R := by
      rw [hzs']; exact getD_zlist k i (by omega)
    have e2 : zs.getD (i + 1) 0 = ((i + 1 : ℕ) : R) * Collatz.Z_STEP R := by
      rw [hzs']; exact getD_zlist k (i + 1) (by omega)
    have hZ : (0 : R) ≤ Collatz.Z_STEP R := by
      rw [Collatz.Z_STEP]; norm_num
    constructor
    · rw [e1, e2]
      have hc : (i : R) ≤ ((i + 1 : ℕ) : R) := by push_cast; linarith
      exact mul_le_mul_of_nonneg_right hc hZ
    · rw [e1, e2]
      push_cast
      ring

/-- Witness for C4 at `start = 2` (one iteration, `2 → 1`) over `ℚ`, with
`cos` and `sin` instantiated by the zero function and `log` by the constant
one. -/
theorem fixed_policy_trajectory_invariants_witness :
    2 ≤ 2 ∧
    ([(0 : ℚ), 0].head? = some 0 ∧ [(0 : ℚ), 0].head? = some 0 ∧
      [(0 : ℚ), Collatz.Z_STEP ℚ].head? = some 0 ∧
      (∃ k, Collatz.stoppingTimeAux "binary" 1 2 = some k ∧
        [(0 : ℚ), 0].length = k + 1 ∧ [(0 : ℚ), 0].length = k + 1 ∧
        [(0 : ℚ), Collatz.Z_STEP ℚ].length = k + 1) ∧
      ∀ i, i + 1 < [(0 : ℚ), Collatz.Z_STEP ℚ].length →
        [(0 : ℚ), Collatz.Z_STEP ℚ].getD i 0 ≤
          [(0 : ℚ), Collatz.Z_STEP ℚ].getD (i + 1) 0 ∧
        [(0 : ℚ), Collatz.Z_STEP ℚ].getD (i + 1) 0 -
          [(0 : ℚ), Collatz.Z_STEP ℚ].getD i 0 = Collatz.Z_STEP ℚ) :=
  ⟨by decide,
   fixed_policy_trajectory_invariants (fun _ => 0) (fun _ => 0) (fun _ => 1) 0 0 0 1 2
     "binary" [0, 0] [0, 0] [0, Collatz.Z_STEP ℚ] (by decide)
     (by simp [Collatz.collatz_path_3d, Collatz.pathAux, Collatz.next_n])⟩

set_option maxRecDepth 20000 in
/-- C5: the generation loop has no iteration ceiling and no
`DivergenceSuspected` failure: at start `27` (stopping time `111` under the
binary rule) the code performs all 111 iterations and returns the full
112-point trajectory instead of failing. -/
theorem no_iteration_ceiling_27 :
    Collatz.stoppingTimeAux "binary" 111 27 = some 111 ∧
    (Collatz.visitedAux "binary" 111 27).map List.length = some 112 := by
  decide

/-- C10: the implementation is defined at the terminal value `1`:
`advance(1, "binary") = 4` with `4 → 2 → 1`, so `1` lies on the binary
cycle `1 → 4 → 2 → 1`, and `advance(1, "ternary") = (4 + 1) // 3 = 1`, a
fixed point. -/
theorem advance_at_one :
    Collatz.next_n 1 "binary" = some 4 ∧
    Collatz.next_n 4 "binary" = some 2 ∧
    Collatz.next_n 2 "binary" = some 1 ∧
    Collatz.next_n 1 "ternary" = some 1 := by
  decide

end Collatzin
